import Mathlib

/-!
# OTP lifecycle manager — shallow embedding

A shallow embedding of the OTP issuance, generation and expiry-sweep logic of
the Project Delta email service (`src/email-service/server.js` and
`src/server.js`), together with theorems settling the specification claims.

Modelling conventions:
* Timestamps (`Date.now()`) are `Nat` milliseconds.
* The Firebase realtime-database node `otp/` is an association list
  `Store = List (String × OtpRecord)`; `snapshot.val()` returning `null`
  corresponds to the empty list.
* `Math.random()` draws are an explicit stream `rs : Nat → ℚ` of values
  in `[0, 1)`; the i-th generator attempt consumes `rs i`.
* Fallible external calls (store reads/writes/deletes, `sendMail`) are
  driven by explicit success oracles (`Bool` or `String → Bool`), so a run
  of a handler is a pure function of its inputs.
* JavaScript truthiness of the optional numeric field `expiresAt`
  (`otpData.expiresAt && ...`) is modelled by `expiresTruthy`:
  an absent field and the number `0` are falsy.
-/

/-- One record stored under `otp/<emailHash>`.  The newer issuance handler
(`otpRef.set` in `src/server.js` and in the second variant of
`src/email-service/server.js`) writes every field; the legacy variant
(`otpRef.update({ otp, generatedAt })`) writes only `otp` and `generatedAt`,
so the remaining fields are optional. -/
structure OtpRecord where
  email : Option String
  otp : String
  expiresAt : Option Nat
  attempts : Option Nat
  sentAt : Option Nat
  generatedAt : Nat
  deriving DecidableEq, Repr

/-- The `otp/` node of the realtime database: an ordered keyed map from
`emailHash` to records (`Object.entries` order is the list order). -/
abbrev Store := List (String × OtpRecord)

/-- Lookup `db.ref('otp/' + k)`: the record stored under key `k`, if any. -/
def Store.findRec (s : Store) (k : String) : Option OtpRecord :=
  (s.find? (fun kr => kr.1 = k)).map (fun kr => kr.2)

/-- Write `otpRef.set(record)` at key `k`: replaces the record stored under `k`,
or creates it. -/
def Store.setRec : Store → String → OtpRecord → Store
  | [], k, r => [(k, r)]
  | kr :: rest, k, r =>
    if kr.1 = k then (k, r) :: rest else kr :: Store.setRec rest k r

/-- The key derivation `email.replace(/[.#$[\]]/g, '_')`: each occurrence of one of the five
characters `.` `#` `$` `[` `]` becomes an underscore. -/
def sanitizeChar (c : Char) : Char :=
  if c = '.' ∨ c = '#' ∨ c = '$' ∨ c = '[' ∨ c = ']' then '_' else c

/-- The storage key (`emailHash`) derived from an email identity. -/
def sanitizeEmail (s : String) : String :=
  ⟨s.data.map sanitizeChar⟩

/-- JS truthiness of the optional numeric field `expiresAt`:
`undefined` and `0` are falsy. -/
def expiresTruthy : Option Nat → Bool
  | none => false
  | some e => e ≠ 0

/-- The sweep's deletion test, `otpData.expiresAt && now > otpData.expiresAt`:
the field must be present and truthy, and strictly in the past. -/
def shouldDelete (r : OtpRecord) (now : Nat) : Bool :=
  match r.expiresAt with
  | none => false
  | some e => e ≠ 0 && e < now

/-- All `otp` code strings currently stored
(`Object.values(otps).map(d => d.otp)`), the set the generator's
`otpExists` collision check runs over. -/
def storeOtpCodes (s : Store) : List String :=
  s.map (fun kr => kr.2.otp)

/-- The value `Math.floor(100000 + r * 900000)` for one `Math.random()` draw `r`
(`Rat.floor` is the mathematical floor on `ℚ`, see `drawOtpInt_eq_floor`). -/
def drawOtpInt (r : ℚ) : ℤ :=
  Rat.floor ((100000 : ℚ) + r * 900000)

/-- Applying `.toString()` to the drawn value: its decimal representation. -/
def drawOtpCode (r : ℚ) : String :=
  Nat.repr (drawOtpInt r).toNat

/-- How `generateUniqueOtp` can fail: the `otpRef.once('value')` read
rejected (the error propagates out of the `async` function), or all
`maxAttempts = 10` draws collided and
`throw new Error('Failed to generate unique OTP after maximum attempts')`
ran. -/
inductive GenErr where
  | storeRead
  | exhausted
  deriving DecidableEq, Repr

/-- The body of `generateUniqueOtp`'s `while (attempts < maxAttempts)` loop:
`i` is the attempt index (so draw `rs i` and read outcome `readOk i` belong
to attempt `i`), the fuel argument is `maxAttempts - attempts`. -/
def genAttempts (store : Store) (rs : Nat → ℚ) (readOk : Nat → Bool) :
    Nat → Nat → Except GenErr String
  | _, 0 => .error .exhausted
  | i, fuel + 1 =>
    let otp := drawOtpCode (rs i)
    if readOk i then
      if store.isEmpty then .ok otp
      else if (storeOtpCodes store).contains otp then
        genAttempts store rs readOk (i + 1) fuel
      else .ok otp
    else .error .storeRead

/-- Function `generateUniqueOtp()`: draw a code, re-read the whole `otp/` node, return
the draw if the node is empty or no stored record holds the same code;
otherwise retry, up to `maxAttempts = 10` times, then throw. -/
def generateUniqueOtp (store : Store) (rs : Nat → ℚ) (readOk : Nat → Bool) :
    Except GenErr String :=
  genAttempts store rs readOk 0 10

/-- The record written by `otpRef.set({...})` in the `/send-otp` handler:
`expiresAt = Date.now() + 5 * 60 * 1000`. -/
def mkOtpRecord (email otp : String) (now : Nat) : OtpRecord :=
  { email := some email
    otp := otp
    expiresAt := some (now + 5 * 60 * 1000)
    attempts := some 0
    sentAt := some now
    generatedAt := now }

/-- The record written for a fresh identity by the legacy issuance variant,
`otpRef.update({ otp, generatedAt: Date.now() })`: no `expiresAt`, no
`attempts`, no `sentAt`. -/
def mkLegacyRecord (otp : String) (now : Nat) : OtpRecord :=
  { email := none
    otp := otp
    expiresAt := none
    attempts := none
    sentAt := none
    generatedAt := now }

/-- The HTTP status of a `/send-otp` response: 400 (`Email is required`),
500 (`Failed to send email`), or 200 success. -/
inductive SendOtpResponse where
  | badRequest
  | serverError
  | ok
  deriving DecidableEq, Repr

/-- Observable outcome of one `/send-otp` request: the response, the store
contents afterwards, and the recipients of every `transporter.sendMail`
invocation made (in order, whether or not the send succeeded). -/
structure IssueOutcome where
  response : SendOtpResponse
  store : Store
  sends : List String
  deriving DecidableEq, Repr

/-- The `POST /send-otp` handler (`src/email-service/server.js`, second
variant; `src/server.js` is the same flow).  Oracles: `rs`/`readOk` drive
`generateUniqueOtp`, `setOk` the `otpRef.set` write, `verifyReadOk` the
read-back verification `otpRef.once('value')`, `sendOk` the
`transporter.sendMail` call.  A falsy `email` (absent or empty) is rejected
with 400 before any side effect; a generator error, a failed write, or a
failed read-back reaches the outer catch as a 500; a failed send is still an
invocation of the sender and leaves the stored record in place. -/
def sendOtpHandler (email? : Option String) (store : Store) (now : Nat)
    (rs : Nat → ℚ) (readOk : Nat → Bool) (setOk : Bool) (verifyReadOk : Bool)
    (sendOk : Bool) : IssueOutcome :=
  match email? with
  | none => ⟨.badRequest, store, []⟩
  | some email =>
    if email.isEmpty then ⟨.badRequest, store, []⟩
    else
      match generateUniqueOtp store rs readOk with
      | .error _ => ⟨.serverError, store, []⟩
      | .ok otp =>
        let key := sanitizeEmail email
        if setOk then
          let store' := Store.setRec store key (mkOtpRecord email otp now)
          if verifyReadOk then
            if sendOk then ⟨.ok, store', [email]⟩
            else ⟨.serverError, store', [email]⟩
          else ⟨.serverError, store', []⟩
        else ⟨.serverError, store, []⟩

/-- Result of one `cleanupExpiredOtps()` run: the store afterwards, the
`cleanedCount`, and whether the run was cut short by a thrown error (which
its own `catch` swallows). -/
structure SweepOutcome where
  store : Store
  cleaned : Nat
  aborted : Bool
  deriving DecidableEq, Repr

/-- The `for (const [emailHash, otpData] of Object.entries(otps))` loop of
`cleanupExpiredOtps`: each record passing `shouldDelete` is removed via
`otpRef.child(emailHash).remove()` (success given by `delOk`); a rejected
`remove()` throws out of the loop, so the failing record and every entry
after it stay untouched. -/
def sweepEntries (delOk : String → Bool) (now : Nat) :
    Store → SweepOutcome
  | [] => ⟨[], 0, false⟩
  | (k, r) :: rest =>
    if shouldDelete r now then
      if delOk k then
        let o := sweepEntries delOk now rest
        ⟨o.store, o.cleaned + 1, o.aborted⟩
      else ⟨(k, r) :: rest, 0, true⟩
    else
      let o := sweepEntries delOk now rest
      ⟨(k, r) :: o.store, o.cleaned, o.aborted⟩

/-- Function `cleanupExpiredOtps()`: read the whole `otp/` node (failure is caught and
leaves the store untouched), return early if empty, else run the deletion
loop.  Every error is caught inside this function, so it never rejects. -/
def cleanupExpiredOtps (store : Store) (now : Nat) (readOk : Bool)
    (delOk : String → Bool) : SweepOutcome :=
  if readOk then
    if store.isEmpty then ⟨store, 0, false⟩
    else sweepEntries delOk now store
  else ⟨store, 0, true⟩

/-- Response of `POST /cleanup-otps`. -/
structure CleanupResponse where
  success : Bool
  deriving DecidableEq, Repr

/-- The `POST /cleanup-otps` handler: `await cleanupExpiredOtps()` then
respond `{success: true}`.  Because `cleanupExpiredOtps` catches all of its
own errors, the handler's `catch` branch (500 `Cleanup failed`) is
unreachable and the response is always success. -/
def cleanupOtpsHandler (store : Store) (now : Nat) (readOk : Bool)
    (delOk : String → Bool) : CleanupResponse × Store :=
  (⟨true⟩, (cleanupExpiredOtps store now readOk delOk).store)

/-- One scheduled or manual sweep after another: fold `cleanupExpiredOtps`
over a list of `(now, readOk, delOk)` run parameters. -/
def sweepMany (runs : List (Nat × Bool × (String → Bool))) (store : Store) :
    Store :=
  runs.foldl (fun s p => (cleanupExpiredOtps s p.1 p.2.1 p.2.2).store) store

/-! ## Shared helper lemmas -/

/-- Unfold `Rat.floor` to the `Int.floor` of the draw expression. -/
theorem drawOtpInt_eq_floor (r : ℚ) : drawOtpInt r = ⌊(100000 : ℚ) + r * 900000⌋ := by
  rw [drawOtpInt, Rat.floor_def, Rat.floor_def']

/-- Concrete draw: `r = 0` yields the code string `"100000"`. -/
theorem drawOtpCode_zero : drawOtpCode 0 = "100000" := by
  have h : (100000 : ℚ) + 0 * 900000 = 100000 := by norm_num
  rw [drawOtpCode, drawOtpInt, h]; rfl

/-- Concrete draw: `r = 1/2` yields the code string `"550000"`. -/
theorem drawOtpCode_half : drawOtpCode (1/2) = "550000" := by
  have h : (100000 : ℚ) + (1/2) * 900000 = 550000 := by norm_num
  rw [drawOtpCode, drawOtpInt, h]; rfl

/-- Decimal digit characters are digits. -/
theorem digitChar_isDigit {m : Nat} (h : m < 10) : (Nat.digitChar m).isDigit := by
  have h10 : ∀ m' : Nat, m' < 10 → (Nat.digitChar m').isDigit := by decide
  exact h10 m h

/-- Exact length of the base-10 digit run produced by `Nat.toDigitsCore`,
provided the fuel suffices. -/
theorem toDigitsCore_ten_length (f : Nat) :
    ∀ (n : Nat) (l : List Char), n < f →
      (Nat.toDigitsCore 10 f n l).length = Nat.log 10 n + 1 + l.length := by
  induction f with
  | zero => intro n l h; exact absurd h (Nat.not_lt_zero n)
  | succ f ih =>
    intro n l h
    rw [Nat.toDigitsCore]
    by_cases hz : n / 10 = 0
    · have hn : n < 10 := (Nat.div_eq_zero_iff (by norm_num)).mp hz
      have hlog : Nat.log 10 n = 0 := Nat.log_eq_zero_iff.mpr (Or.inl hn)
      simp [hz, hlog]; omega
    · have hb : 10 ≤ n := by
        by_contra hc
        exact hz ((Nat.div_eq_zero_iff (by norm_num)).mpr (Nat.lt_of_not_le hc))
      have hpos : 0 < n := lt_of_lt_of_le (by norm_num) hb
      have hlt : n / 10 < f := by
        have h1 : n / 10 < n := Nat.div_lt_self hpos (by norm_num)
        omega
      simp only [hz, if_false]
      rw [ih (n / 10) _ hlt, Nat.log_of_one_lt_of_le (by norm_num) hb]
      simp; omega

/-- The decimal representation of `n` has exactly `log₁₀ n + 1` characters. -/
theorem repr_length_eq (n : Nat) : (Nat.repr n).length = Nat.log 10 n + 1 := by
  have h0 : (Nat.repr n).length = (Nat.toDigitsCore 10 (n + 1) n []).length := rfl
  rw [h0, toDigitsCore_ten_length (n + 1) n [] (Nat.lt_succ_self n)]
  simp

/-- Every character that `Nat.toDigitsCore 10` pushes is a decimal digit. -/
theorem toDigitsCore_ten_digits (f : Nat) :
    ∀ (n : Nat) (l : List Char), (∀ c ∈ l, c.isDigit) →
      ∀ c ∈ Nat.toDigitsCore 10 f n l, c.isDigit := by
  induction f with
  | zero => intro n l hl; exact hl
  | succ f ih =>
    intro n l hl c hc
    rw [Nat.toDigitsCore] at hc
    have hd : (Nat.digitChar (n % 10)).isDigit :=
      digitChar_isDigit (Nat.mod_lt n (by norm_num))
    by_cases hz : n / 10 = 0
    · simp only [hz, if_true] at hc
      rcases List.mem_cons.mp hc with h1 | h1
      · exact h1 ▸ hd
      · exact hl c h1
    · simp only [hz, if_false] at hc
      refine ih (n / 10) _ ?_ c hc
      intro c' h2
      rcases List.mem_cons.mp h2 with h3 | h3
      · exact h3 ▸ hd
      · exact hl c' h3

/-- Every character of the decimal representation of `n` is a digit. -/
theorem repr_digits (n : Nat) : ∀ c ∈ (Nat.repr n).data, c.isDigit := by
  have h0 : (Nat.repr n).data = Nat.toDigitsCore 10 (n + 1) n [] := rfl
  rw [h0]
  exact toDigitsCore_ten_digits (n + 1) n [] (by intro c hc; cases hc)

/-- After `Store.setRec`, looking up the written key returns the new record. -/
theorem findRec_setRec (s : Store) (k : String) (r : OtpRecord) :
    Store.findRec (Store.setRec s k r) k = some r := by
  induction s with
  | nil => simp [Store.setRec, Store.findRec]
  | cons hd tl ih =>
    by_cases hk : hd.1 = k
    · simp [Store.setRec, hk, Store.findRec]
    · rw [Store.setRec, if_neg hk, Store.findRec, List.find?_cons]
      have hd2 : (decide (hd.1 = k)) = false := by simp [hk]
      rw [hd2]
      exact ih

/-- A code returned by the collision loop is not among the stored codes. -/
theorem genAttempts_ok_not_mem (store : Store) (rs : Nat → ℚ) (readOk : Nat → Bool) :
    ∀ (fuel i : Nat) (c : String), genAttempts store rs readOk i fuel = .ok c →
      c ∉ storeOtpCodes store := by
  intro fuel
  induction fuel with
  | zero => intro i c h; simp [genAttempts] at h
  | succ fuel ih =>
    intro i c h
    rw [genAttempts] at h
    cases hr : readOk i with
    | false => simp [hr] at h
    | true =>
      simp only [hr] at h
      cases he : store.isEmpty with
      | true =>
        rw [List.isEmpty_iff.mp he]
        simp [storeOtpCodes]
      | false =>
        simp only [he] at h
        cases hc : (storeOtpCodes store).contains (drawOtpCode (rs i)) with
        | true =>
          simp only [hc] at h
          simp only [if_true, Bool.false_eq_true, if_false] at h
          exact ih (i + 1) c h
        | false =>
          simp only [hc] at h
          simp only [if_true, Bool.false_eq_true, if_false] at h
          have hcc : c = drawOtpCode (rs i) := by
            injection h with h2; exact h2.symm
          intro hmem
          rw [hcc] at hmem
          have hcontains : (storeOtpCodes store).contains (drawOtpCode (rs i)) = true :=
            List.contains_iff_exists_mem_beq.mpr ⟨_, hmem, by simp⟩
          rw [hc] at hcontains
          cases hcontains

/-- Success path of the `/send-otp` handler: a non-empty email, a generated
code, and all store/sender calls succeeding produce a 200 response, exactly
one sender invocation, and the freshly written record. -/
theorem sendOtp_success (email : String) (store : Store) (now : Nat)
    (rs : Nat → ℚ) (c : String)
    (hne : email.isEmpty = false)
    (hgen : generateUniqueOtp store rs (fun _ => true) = .ok c) :
    sendOtpHandler (some email) store now rs (fun _ => true) true true true =
      ⟨.ok, Store.setRec store (sanitizeEmail email) (mkOtpRecord email c now), [email]⟩ := by
  simp [sendOtpHandler, hne, hgen]

/-- A sweep in which every delete succeeds removes exactly the records that
pass the deletion test and keeps the rest, in order. -/
theorem sweepEntries_allOk (now : Nat) :
    ∀ store : Store, sweepEntries (fun _ => true) now store =
      ⟨store.filter (fun kr => !shouldDelete kr.2 now),
       (store.filter (fun kr => shouldDelete kr.2 now)).length, false⟩ := by
  intro store
  induction store with
  | nil => simp [sweepEntries]
  | cons hd tl ih =>
    cases hsd : shouldDelete hd.2 now with
    | true => simp [sweepEntries, hsd, ih, List.filter_cons]
    | false => simp [sweepEntries, hsd, ih, List.filter_cons]

/-- When the sweep loop reaches a record that passes the deletion test but
whose `remove()` fails, the thrown error ends the loop: that record and the
whole remainder of the store stay untouched. -/
theorem sweepEntries_abortAt (now : Nat) (delOk : String → Bool) (k : String)
    (r : OtpRecord) (hdel : shouldDelete r now = true) (hfail : delOk k = false) :
    ∀ pre post : Store,
      (sweepEntries delOk now (pre ++ (k, r) :: post)).store =
        (sweepEntries delOk now pre).store ++ (k, r) :: post := by
  intro pre
  induction pre with
  | nil => intro post; simp [sweepEntries, hdel, hfail]
  | cons hd tl ih =>
    intro post
    cases hsd : shouldDelete hd.2 now with
    | true =>
      cases hok : delOk hd.1 with
      | true => simp [sweepEntries, hsd, hok, ih post]
      | false => simp [sweepEntries, hsd, hok]
    | false => simp [sweepEntries, hsd, ih post]

/-- A record that fails the deletion test survives the sweep loop, whatever
the delete outcomes. -/
theorem sweepEntries_preserves (now : Nat) (delOk : String → Bool)
    (k : String) (r : OtpRecord) (hsd : shouldDelete r now = false) :
    ∀ store : Store, (k, r) ∈ store →
      (k, r) ∈ (sweepEntries delOk now store).store := by
  intro store
  induction store with
  | nil => intro h; cases h
  | cons hd tl ih =>
    intro hmem
    rcases List.mem_cons.mp hmem with h1 | h1
    · subst h1
      simp [sweepEntries, hsd]
    · cases hd2 : shouldDelete hd.2 now with
      | true =>
        cases hok : delOk hd.1 with
        | true => simpa [sweepEntries, hd2, hok] using ih h1
        | false => simp [sweepEntries, hd2, hok, List.mem_cons, h1]
      | false =>
        simp only [sweepEntries, hd2, Bool.false_eq_true, if_false]
        exact List.mem_cons_of_mem _ (ih h1)

/-- A record that fails the deletion test survives one `cleanupExpiredOtps`
run, whatever the read and delete outcomes. -/
theorem cleanup_preserves (now : Nat) (readOk : Bool) (delOk : String → Bool)
    (k : String) (r : OtpRecord) (hsd : shouldDelete r now = false)
    (store : Store) (hmem : (k, r) ∈ store) :
    (k, r) ∈ (cleanupExpiredOtps store now readOk delOk).store := by
  rw [cleanupExpiredOtps]
  cases readOk with
  | false => simpa using hmem
  | true =>
    cases he : store.isEmpty with
    | true => simpa [he] using hmem
    | false => simpa [he] using sweepEntries_preserves now delOk k r hsd store hmem

/-- A record whose `expiresAt` is absent or `0` never passes the deletion
test, at any time. -/
theorem shouldDelete_not_truthy (r : OtpRecord) (now : Nat)
    (h : expiresTruthy r.expiresAt = false) : shouldDelete r now = false := by
  cases he : r.expiresAt with
  | none => simp [shouldDelete, he]
  | some e =>
    simp only [expiresTruthy, he] at h
    simp only [shouldDelete, he]
    simp at h
    simp [h]

/-- A record with a non-truthy `expiresAt` survives any sequence of sweeps. -/
theorem sweepMany_preserves (k : String) (r : OtpRecord)
    (h : expiresTruthy r.expiresAt = false) :
    ∀ (runs : List (Nat × Bool × (String → Bool))) (store : Store),
      (k, r) ∈ store → (k, r) ∈ sweepMany runs store := by
  intro runs
  induction runs with
  | nil => intro store hmem; simpa [sweepMany] using hmem
  | cons p rest ih =>
    intro store hmem
    have h1 : (k, r) ∈ (cleanupExpiredOtps store p.1 p.2.1 p.2.2).store :=
      cleanup_preserves p.1 p.2.1 p.2.2 k r (shouldDelete_not_truthy r p.1 h) store hmem
    simpa [sweepMany] using ih _ h1

/-- If a key maps to a record, that record's code is among the stored codes. -/
theorem findRec_otp_mem (store : Store) (k : String) (r : OtpRecord)
    (h : Store.findRec store k = some r) : r.otp ∈ storeOtpCodes store := by
  rw [Store.findRec] at h
  cases hf : store.find? (fun kr => kr.1 = k) with
  | none => rw [hf] at h; cases h
  | some kr =>
    rw [hf] at h
    have hmem : kr ∈ store := List.mem_of_find?_eq_some hf
    have : kr.2 = r := by injection h
    rw [storeOtpCodes]
    exact this ▸ List.mem_map.mpr ⟨kr, hmem, rfl⟩

/-! ## Concrete fixtures -/

/-- A stored record holding code `"100000"`. -/
def rec100 : OtpRecord := mkOtpRecord "x@y.com" "100000" 0

/-- A stored record holding code `"123456"`. -/
def rec123 : OtpRecord := mkOtpRecord "x@y.com" "123456" 0

/-- An unexpired record (at `now = 30000`): `expiresAt = 400000`. -/
def staleRec : OtpRecord :=
  { email := some "u@x.com", otp := "111111", expiresAt := some 400000,
    attempts := some 0, sentAt := some 0, generatedAt := 0 }

/-- An expired record (at `now = 1000`): `expiresAt = 500`. -/
def expiredRec : OtpRecord :=
  { email := some "e@x.com", otp := "111111", expiresAt := some 500,
    attempts := some 0, sentAt := some 0, generatedAt := 0 }

/-- A second expired record (at `now = 1000`): `expiresAt = 600`. -/
def expiredRec2 : OtpRecord :=
  { email := some "e2@x.com", otp := "333333", expiresAt := some 600,
    attempts := some 0, sentAt := some 0, generatedAt := 0 }

/-- An active record (at `now = 1000`): `expiresAt = 2000`. -/
def activeRec : OtpRecord :=
  { email := some "b@x.com", otp := "222222", expiresAt := some 2000,
    attempts := some 0, sentAt := some 0, generatedAt := 0 }

/-- A record exactly at the expiry boundary for `now = 100`. -/
def boundaryRec : OtpRecord :=
  { email := some "c@x.com", otp := "444444", expiresAt := some 100,
    attempts := some 0, sentAt := some 0, generatedAt := 0 }

/-- Two `/send-otp` calls for the same identity, at times `t` and `t'`, with
all external calls succeeding: the second call runs on the store left by the
first. -/
def issueTwice (email : String) (store0 : Store) (t t' : Nat)
    (rs rs' : Nat → ℚ) : IssueOutcome :=
  sendOtpHandler (some email)
    (sendOtpHandler (some email) store0 t rs (fun _ => true) true true true).store
    t' rs' (fun _ => true) true true true

deriving instance DecidableEq for Except

/-! ## Claims -/

/-- C1, counterexample: issuing for `a@b.com` at `t = 0` succeeds, and a
second call at `t' = 30000` (within the claimed 60-second window) is *not*
rate-limited: it returns 200 success, replaces the stored record with a
fresh code and fresh `expiresAt`, and invokes the Email Sender once — the
handler contains no rate limiter at all. -/
theorem C1_counterexample :
    sendOtpHandler (some "a@b.com") [] 0 (fun _ => 0) (fun _ => true) true true true =
      ⟨.ok, [("a@b_com", mkOtpRecord "a@b.com" "100000" 0)], ["a@b.com"]⟩ ∧
    sendOtpHandler (some "a@b.com") [("a@b_com", mkOtpRecord "a@b.com" "100000" 0)] 30000
        (fun _ => 1/2) (fun _ => true) true true true =
      ⟨.ok, [("a@b_com", mkOtpRecord "a@b.com" "550000" 30000)], ["a@b.com"]⟩ ∧
    (30000 : Nat) - 0 < 60000 ∧
    mkOtpRecord "a@b.com" "550000" 30000 ≠ mkOtpRecord "a@b.com" "100000" 0 := by
  refine ⟨?_, ?_, by norm_num, by decide⟩
  · simp only [sendOtpHandler, generateUniqueOtp, genAttempts, drawOtpCode_zero]
    decide
  · simp only [sendOtpHandler, generateUniqueOtp, genAttempts, drawOtpCode_half]
    decide

/-- C1, amended: there is no rate limiter, so a second issuance for the same
identity within 60 seconds of the first behaves exactly like any issuance
whose external calls succeed: it responds 200, invokes the Email Sender
once, and overwrites the stored record with the freshly generated code and
`expiresAt = t' + 300000`. -/
theorem C1_theorem (email : String) (store0 : Store) (t t' : Nat)
    (rs rs' : Nat → ℚ) (c' : String)
    (hne : email.isEmpty = false) (hwin : t' - t < 60000)
    (hgen : generateUniqueOtp
        (sendOtpHandler (some email) store0 t rs (fun _ => true) true true true).store
        rs' (fun _ => true) = .ok c') :
    (issueTwice email store0 t t' rs rs').response = .ok ∧
    (issueTwice email store0 t t' rs rs').sends = [email] ∧
    Store.findRec (issueTwice email store0 t t' rs rs').store (sanitizeEmail email) =
      some (mkOtpRecord email c' t') := by
  have h := sendOtp_success email
    (sendOtpHandler (some email) store0 t rs (fun _ => true) true true true).store
    t' rs' c' hne hgen
  rw [issueTwice, h]
  exact ⟨rfl, rfl, findRec_setRec _ _ _⟩

/-- C1, witness: the amended claim at a concrete two-call run. -/
theorem C1_witness :
    (issueTwice "a@b.com" [] 0 30000 (fun _ => 0) (fun _ => 1/2)).response = .ok ∧
    (issueTwice "a@b.com" [] 0 30000 (fun _ => 0) (fun _ => 1/2)).sends = ["a@b.com"] ∧
    Store.findRec (issueTwice "a@b.com" [] 0 30000 (fun _ => 0) (fun _ => 1/2)).store
        (sanitizeEmail "a@b.com") = some (mkOtpRecord "a@b.com" "550000" 30000) :=
  C1_theorem "a@b.com" [] 0 30000 (fun _ => 0) (fun _ => 1/2) "550000" rfl (by norm_num)
    (by
      have h1 : sendOtpHandler (some "a@b.com") [] 0 (fun _ => 0) (fun _ => true) true true true =
          ⟨.ok, [("a@b_com", mkOtpRecord "a@b.com" "100000" 0)], ["a@b.com"]⟩ := by
        simp only [sendOtpHandler, generateUniqueOtp, genAttempts, drawOtpCode_zero]
        decide
      rw [h1]
      simp only [generateUniqueOtp, genAttempts, drawOtpCode_half]
      decide)

/-- C2, counterexample: with a stored record that is unexpired at
`now = 30000` (`expiresAt = 400000`), an issuance does *not* reuse the
stored code `"111111"`: it stores a fresh code `"550000"` with a reset
`expiresAt = 330000`. -/
theorem C2_counterexample :
    (30000 : Nat) < 400000 ∧ staleRec.expiresAt = some 400000 ∧
    Store.findRec [("u@x_com", staleRec)] (sanitizeEmail "u@x.com") = some staleRec ∧
    sendOtpHandler (some "u@x.com") [("u@x_com", staleRec)] 30000
        (fun _ => 1/2) (fun _ => true) true true true =
      ⟨.ok, [("u@x_com", mkOtpRecord "u@x.com" "550000" 30000)], ["u@x.com"]⟩ ∧
    "550000" ≠ staleRec.otp ∧
    (mkOtpRecord "u@x.com" "550000" 30000).expiresAt ≠ staleRec.expiresAt := by
  refine ⟨by norm_num, rfl, by decide, ?_, by decide, by decide⟩
  simp only [sendOtpHandler, generateUniqueOtp, genAttempts, drawOtpCode_half]
  decide

/-- C2, amended: an issuance ignores any existing record, even one that is
unexpired at `now`: on the success path it overwrites the stored record
with the freshly generated code (necessarily different from the old one,
by the generator's collision check) and a reset `expiresAt = now + 300000`. -/
theorem C2_theorem (email : String) (store : Store) (now e0 : Nat) (r0 : OtpRecord)
    (rs : Nat → ℚ) (c : String)
    (hne : email.isEmpty = false)
    (h0 : Store.findRec store (sanitizeEmail email) = some r0)
    (hexp : r0.expiresAt = some e0) (hact : now < e0)
    (hgen : generateUniqueOtp store rs (fun _ => true) = .ok c) :
    Store.findRec (sendOtpHandler (some email) store now rs (fun _ => true) true true true).store
        (sanitizeEmail email) = some (mkOtpRecord email c now) ∧
    c ≠ r0.otp ∧
    (mkOtpRecord email c now).expiresAt = some (now + 300000) := by
  have h := sendOtp_success email store now rs c hne hgen
  refine ⟨?_, ?_, by norm_num [mkOtpRecord]⟩
  · rw [h]
    exact findRec_setRec _ _ _
  · intro hceq
    have hm : r0.otp ∈ storeOtpCodes store := findRec_otp_mem store _ r0 h0
    have hnot : c ∉ storeOtpCodes store :=
      genAttempts_ok_not_mem store rs (fun _ => true) 10 0 c hgen
    exact hnot (hceq ▸ hm)

/-- C2, witness: the amended claim at a concrete store with an unexpired
record. -/
theorem C2_witness :
    Store.findRec (sendOtpHandler (some "u@x.com") [("u@x_com", staleRec)] 30000
        (fun _ => 1/2) (fun _ => true) true true true).store (sanitizeEmail "u@x.com") =
      some (mkOtpRecord "u@x.com" "550000" 30000) ∧
    "550000" ≠ staleRec.otp ∧
    (mkOtpRecord "u@x.com" "550000" 30000).expiresAt = some (30000 + 300000) :=
  C2_theorem "u@x.com" [("u@x_com", staleRec)] 30000 400000 staleRec (fun _ => 1/2) "550000"
    rfl (by decide) rfl (by norm_num)
    (by
      simp only [generateUniqueOtp, genAttempts, drawOtpCode_half]
      decide)

/-- C3, counterexample: the generator *can* fail the request.  With one
stored record holding `"100000"` and every draw equal to `"100000"`, all 10
attempts collide and the result is the thrown error, not the last-drawn
value; and when the store read fails, the result is the propagated read
error, not the first draw. -/
theorem C3_counterexample :
    generateUniqueOtp [("k", rec100)] (fun _ => 0) (fun _ => true) = .error .exhausted ∧
    generateUniqueOtp [("k", rec100)] (fun _ => 0) (fun _ => true) ≠ .ok (drawOtpCode 0) ∧
    generateUniqueOtp [("k", rec100)] (fun _ => 0) (fun _ => false) = .error .storeRead ∧
    generateUniqueOtp [("k", rec100)] (fun _ => 0) (fun _ => false) ≠ .ok (drawOtpCode 0) := by
  have h1 : generateUniqueOtp [("k", rec100)] (fun _ => 0) (fun _ => true) = .error .exhausted := by
    simp [generateUniqueOtp, genAttempts, drawOtpCode_zero, storeOtpCodes, rec100, mkOtpRecord]
  have h2 : generateUniqueOtp [("k", rec100)] (fun _ => 0) (fun _ => false) = .error .storeRead := by
    simp [generateUniqueOtp, genAttempts]
  exact ⟨h1, by simp [h1], h2, by simp [h2]⟩

/-- C3, amended: the generator fails the request in both edge cases — a
failed uniqueness-check read propagates as an error (the HTTP caller gets a
500), and if every one of the 10 bounded retry draws collides with a stored
code the generator throws `exhausted` instead of returning the last draw. -/
theorem C3_theorem :
    (∀ (store : Store) (rs : Nat → ℚ) (readOk : Nat → Bool),
      readOk 0 = false → generateUniqueOtp store rs readOk = .error .storeRead) ∧
    (∀ (store : Store) (rs : Nat → ℚ) (readOk : Nat → Bool),
      store ≠ [] → (∀ i, readOk i = true) →
      (∀ i, drawOtpCode (rs i) ∈ storeOtpCodes store) →
      generateUniqueOtp store rs readOk = .error .exhausted) := by
  constructor
  · intro store rs readOk h
    rw [generateUniqueOtp, genAttempts, h]
    simp
  · intro store rs readOk hne hro hmem
    have key : ∀ (fuel i : Nat), genAttempts store rs readOk i fuel = .error .exhausted := by
      intro fuel
      induction fuel with
      | zero => intro i; rfl
      | succ fuel ih =>
        intro i
        have hie : store.isEmpty = false := by
          cases store with
          | nil => exact absurd rfl hne
          | cons a l => rfl
        have hc : (storeOtpCodes store).contains (drawOtpCode (rs i)) = true :=
          List.contains_iff_exists_mem_beq.mpr ⟨_, hmem i, by simp⟩
        rw [genAttempts]
        simp only [hro i, hie, hc, if_true, Bool.false_eq_true, if_false]
        exact ih (i + 1)
    exact key 10 0

/-- C3, witness: both failure modes of the amended claim at concrete
inputs. -/
theorem C3_witness :
    generateUniqueOtp [("k", rec100)] (fun _ => 1/2) (fun _ => false) = .error .storeRead ∧
    generateUniqueOtp [("k", rec100)] (fun _ => 0) (fun _ => true) = .error .exhausted :=
  ⟨C3_theorem.1 _ _ _ rfl,
   C3_theorem.2 _ _ _ (by simp) (fun _ => rfl)
     (fun i => by simp [drawOtpCode_zero, storeOtpCodes, rec100, mkOtpRecord])⟩

/-- C4: if the `otpRef.set` write fails after a code was generated, the
issuance aborts entirely — the response is a 500, the Email Sender is
invoked zero times, and the store is unchanged. -/
theorem C4_theorem (email : String) (store : Store) (now : Nat) (rs : Nat → ℚ)
    (readOk : Nat → Bool) (verifyReadOk sendOk : Bool) (c : String)
    (hne : email.isEmpty = false)
    (hgen : generateUniqueOtp store rs readOk = .ok c) :
    sendOtpHandler (some email) store now rs readOk false verifyReadOk sendOk =
      ⟨.serverError, store, []⟩ := by
  simp [sendOtpHandler, hne, hgen]

/-- C4, witness: a concrete failed-write issuance. -/
theorem C4_witness :
    sendOtpHandler (some "a@b.com") [] 0 (fun _ => 0) (fun _ => true) false true true =
      ⟨.serverError, [], []⟩ :=
  C4_theorem "a@b.com" [] 0 (fun _ => 0) (fun _ => true) true true "100000" rfl
    (by simp [generateUniqueOtp, genAttempts, drawOtpCode_zero])

/-- C5, counterexample: the sweep's test is `now > expiresAt`, strict — a
record with `expiresAt = 100` at `now = 100` satisfies the claim's
`expiresAt <= now` but is preserved, so the sweep does not delete exactly
the records with `expiresAt <= now`. -/
theorem C5_counterexample :
    boundaryRec.expiresAt = some 100 ∧ (100 : Nat) ≤ 100 ∧
    cleanupExpiredOtps [("k", boundaryRec)] 100 true (fun _ => true) =
      ⟨[("k", boundaryRec)], 0, false⟩ := by decide

/-- C5, amended: a sweep in which every delete succeeds removes exactly the
records whose `expiresAt` is present, non-zero, and *strictly* less than
`now`, preserving all others (including those with `expiresAt = now`); in
particular a store with one strictly-expired and one active record ends
with only the active record. -/
theorem C5_theorem :
    (∀ (store : Store) (now : Nat),
      (cleanupExpiredOtps store now true (fun _ => true)).store =
        store.filter (fun kr => !shouldDelete kr.2 now)) ∧
    (cleanupExpiredOtps [("e", expiredRec), ("a", activeRec)] 1000 true (fun _ => true)).store =
      [("a", activeRec)] := by
  constructor
  · intro store now
    cases he : store.isEmpty with
    | true =>
      rw [List.isEmpty_iff.mp he]
      simp [cleanupExpiredOtps]
    | false =>
      simp [cleanupExpiredOtps, he, sweepEntries_allOk]
  · decide

/-- C6, counterexample: two expired records, the first of which fails to
delete.  The sweep run ends at the failure — the second expired record
(whose delete would have succeeded) is still present and the cleaned count
is 0, so deletion is *not* independent per record. -/
theorem C6_counterexample :
    shouldDelete expiredRec 1000 = true ∧
    shouldDelete expiredRec2 1000 = true ∧
    (fun k => k != "k1") "k2" = true ∧
    cleanupExpiredOtps [("k1", expiredRec), ("k2", expiredRec2)] 1000 true (fun k => k != "k1") =
      ⟨[("k1", expiredRec), ("k2", expiredRec2)], 0, true⟩ := by decide

/-- C6, amended: a failed per-record delete aborts the remainder of that
sweep run — the failing record and every entry after it are left untouched
— but the failure is caught inside `cleanupExpiredOtps`, so no sweep
failure is ever raised to a caller and `/cleanup-otps` always reports
success. -/
theorem C6_theorem :
    (∀ (store : Store) (now : Nat) (readOk : Bool) (delOk : String → Bool),
      (cleanupOtpsHandler store now readOk delOk).1.success = true) ∧
    (∀ (now : Nat) (delOk : String → Bool) (k : String) (r : OtpRecord) (pre post : Store),
      shouldDelete r now = true → delOk k = false →
      (sweepEntries delOk now (pre ++ (k, r) :: post)).store =
        (sweepEntries delOk now pre).store ++ (k, r) :: post) :=
  ⟨fun _ _ _ _ => rfl,
   fun now delOk k r pre post h1 h2 => sweepEntries_abortAt now delOk k r h1 h2 pre post⟩

/-- C6, witness: the amended claim at a concrete two-record store with a
failing first delete. -/
theorem C6_witness :
    (cleanupOtpsHandler [("k1", expiredRec), ("k2", expiredRec2)] 1000 true
        (fun k => k != "k1")).1.success = true ∧
    (sweepEntries (fun k => k != "k1") 1000 ([] ++ ("k1", expiredRec) :: [("k2", expiredRec2)])).store =
      (sweepEntries (fun k => k != "k1") 1000 []).store ++ ("k1", expiredRec) :: [("k2", expiredRec2)] :=
  ⟨C6_theorem.1 _ _ _ _,
   C6_theorem.2 1000 (fun k => k != "k1") "k1" expiredRec [] [("k2", expiredRec2)]
     (by decide) (by decide)⟩

/-- C7: whenever the generator's reads succeed and it returns a code, that
code is not among the currently stored codes. -/
theorem C7_theorem (store : Store) (rs : Nat → ℚ) (readOk : Nat → Bool) (c : String)
    (h : generateUniqueOtp store rs readOk = .ok c) : c ∉ storeOtpCodes store :=
  genAttempts_ok_not_mem store rs readOk 10 0 c h

/-- C7, witness: generating against a store holding `"123456"` returns
`"100000"`, which is not stored. -/
theorem C7_witness : "100000" ∉ storeOtpCodes [("k", rec123)] :=
  C7_theorem [("k", rec123)] (fun _ => 0) (fun _ => true) "100000"
    (by simp [generateUniqueOtp, genAttempts, drawOtpCode_zero, storeOtpCodes, rec123, mkOtpRecord])

/-- C8: for every draw `0 ≤ r < 1`, the drawn value lies in
`[100000, 999999]` and its string form is its 6-character decimal
representation, all characters digits. -/
theorem C8_theorem (r : ℚ) (h0 : 0 ≤ r) (h1 : r < 1) :
    100000 ≤ drawOtpInt r ∧ drawOtpInt r ≤ 999999 ∧
    drawOtpCode r = Nat.repr (drawOtpInt r).toNat ∧
    (drawOtpCode r).length = 6 ∧
    ∀ c ∈ (drawOtpCode r).data, c.isDigit := by
  have hlo : (100000 : ℤ) ≤ drawOtpInt r := by
    rw [drawOtpInt_eq_floor]
    refine Int.le_floor.mpr ?_
    push_cast
    nlinarith
  have hhi : drawOtpInt r ≤ 999999 := by
    rw [drawOtpInt_eq_floor]
    have h2 : ⌊(100000 : ℚ) + r * 900000⌋ < 1000000 := by
      refine Int.floor_lt.mpr ?_
      push_cast
      nlinarith
    omega
  have hn1 : 100000 ≤ (drawOtpInt r).toNat := by omega
  have hn2 : (drawOtpInt r).toNat ≤ 999999 := by omega
  refine ⟨hlo, hhi, rfl, ?_, repr_digits _⟩
  rw [drawOtpCode, repr_length_eq]
  have hlog : Nat.log 10 (drawOtpInt r).toNat = 5 :=
    Nat.log_eq_of_pow_le_of_lt_pow (by norm_num; omega) (by norm_num; omega)
  omega

/-- C8, witness: the bounds and 6-digit shape at the concrete draw `r = 0`. -/
theorem C8_witness :
    100000 ≤ drawOtpInt 0 ∧ drawOtpInt 0 ≤ 999999 ∧
    drawOtpCode 0 = Nat.repr (drawOtpInt 0).toNat ∧
    (drawOtpCode 0).length = 6 ∧
    ∀ c ∈ (drawOtpCode 0).data, c.isDigit :=
  C8_theorem 0 (by norm_num) (by norm_num)

/-- C9: the key normalization collides distinct identities —
`a.b@c.com` and `a_b@c.com` share the storage key `a_b@c_com`, so an
issuance for `a.b@c.com` overwrites the record stored for `a_b@c.com`. -/
theorem C9_theorem :
    sanitizeEmail "a.b@c.com" = sanitizeEmail "a_b@c.com" ∧
    "a.b@c.com" ≠ "a_b@c.com" ∧
    sendOtpHandler (some "a.b@c.com") [("a_b@c_com", mkOtpRecord "a_b@c.com" "111111" 0)]
        5000 (fun _ => 1/2) (fun _ => true) true true true =
      ⟨.ok, [("a_b@c_com", mkOtpRecord "a.b@c.com" "550000" 5000)], ["a.b@c.com"]⟩ := by
  refine ⟨by decide, by decide, ?_⟩
  simp only [sendOtpHandler, generateUniqueOtp, genAttempts, drawOtpCode_half]
  decide

/-- C10: a record whose `expiresAt` is absent (or `0`, JS-falsy) is never
deleted by any number of sweep runs, whatever their times and delete
outcomes; the records written by the legacy `{otp, generatedAt}` issuance
variant are exactly of this shape. -/
theorem C10_theorem :
    (∀ (runs : List (Nat × Bool × (String → Bool))) (store : Store)
        (k : String) (r : OtpRecord),
      (k, r) ∈ store → expiresTruthy r.expiresAt = false →
      (k, r) ∈ sweepMany runs store) ∧
    (∀ (otp : String) (now : Nat), expiresTruthy (mkLegacyRecord otp now).expiresAt = false) := by
  refine ⟨?_, fun otp now => rfl⟩
  intro runs store k r hmem htr
  exact sweepMany_preserves k r htr runs store hmem

/-- C10, witness: a legacy record survives a concrete sweep far in the
future. -/
theorem C10_witness :
    ("k", mkLegacyRecord "123456" 0) ∈
      sweepMany [(1000000000, true, fun _ => true)] [("k", mkLegacyRecord "123456" 0)] :=
  C10_theorem.1 _ _ _ _ (by simp) rfl
